import Mathlib

/-!
Shallow embedding of `geextract/sar/sentinel_one.py`: the Sentinel-1 GRD
filename date parser (`get_date`) and the time-series extractor
(`ts_extract`).  All definitions are translated from the Python source;
the remote Earth-Engine platform is modelled as an oracle supplied to the
extractor, and the external flattening helpers (`simplify`, `dictify`,
which live outside this repository's sources) are modelled by letting the
oracle return already-flattened records.
-/

set_option autoImplicit false

namespace Geextract

/-- A Python `datetime.date`: the value returned by `get_date`. -/
structure PyDate where
  year : Nat
  month : Nat
  day : Nat
  deriving DecidableEq, Repr

/-- A Python `datetime.datetime` as passed to `filterDate`.  The code only
passes these values through (and snapshots `datetime.today()` once, at
module import, for the default `end`); no behaviour in scope depends on the
time-of-day component, which is therefore omitted. -/
structure PyDateTime where
  year : Nat
  month : Nat
  day : Nat
  deriving DecidableEq, Repr

/-! ### The compiled regular expression `p0`

`get_date` compiles a triple-quoted pattern WITHOUT the `re.VERBOSE` flag,
so every newline and every run of indentation spaces inside the pattern is a
literal part of it.  We embed the pattern exactly as Python compiles it:
a sequence of tokens where the whitespace runs are literal tokens. -/

/-- One token of the compiled pattern: a literal string, an alternation of
literal strings, or a fixed-length character-class repetition
(digits for a `d`-class group, word characters for a `w`-class group,
alphanumerics for the spec-side grammar). -/
inductive PatTok where
  | lit (s : String)
  | alts (ss : List String)
  | digits (n : Nat)
  | wordChars (n : Nat)
  | alnumChars (n : Nat)

/-- Strip the literal character list `p` from the front of `cs`. -/
def stripLit : List Char → List Char → Option (List Char)
  | [], cs => some cs
  | _ :: _, [] => none
  | p :: ps, c :: cs => if c = p then stripLit ps cs else none

/-- Take exactly `n` characters satisfying `p` from the front of the input,
returning them together with the rest. -/
def takeClass (p : Char → Bool) : Nat → List Char → Option (List Char × List Char)
  | 0, cs => some ([], cs)
  | _ + 1, [] => none
  | n + 1, c :: cs =>
    if p c then
      match takeClass p n cs with
      | some (tk, rest) => some (c :: tk, rest)
      | none => none
    else none

/-- First-match alternation over literal alternatives (the order is the
order in the pattern, as in the regular-expression engine). -/
def matchAlts : List String → List Char → Option (List String × List Char)
  | [], _ => none
  | s :: ss, cs =>
    match stripLit s.data cs with
    | some rest => some ([s], rest)
    | none => matchAlts ss cs

/-- A word character in the sense of the `w` character class (ASCII). -/
def isWordCh (c : Char) : Bool := c.isAlphanum || c = '_'

/-- Match one token, returning its captured text (empty for literals) and
the remaining input. -/
def matchTok : PatTok → List Char → Option (List String × List Char)
  | .lit s, cs => (stripLit s.data cs).map (fun rest => ([], rest))
  | .alts ss, cs => matchAlts ss cs
  | .digits n, cs =>
    (takeClass Char.isDigit n cs).map (fun tr => ([String.mk tr.1], tr.2))
  | .wordChars n, cs =>
    (takeClass isWordCh n cs).map (fun tr => ([String.mk tr.1], tr.2))
  | .alnumChars n, cs =>
    (takeClass Char.isAlphanum n cs).map (fun tr => ([String.mk tr.1], tr.2))

/-- Match a token sequence at the front of the input, collecting the
captured group texts in order. -/
def matchToks : List PatTok → List Char → Option (List String × List Char)
  | [], cs => some ([], cs)
  | t :: ts, cs =>
    match matchTok t cs with
    | none => none
    | some (cap, rest) =>
      match matchToks ts rest with
      | none => none
      | some (caps, rest2) => some (cap ++ caps, rest2)

/-- The literal whitespace run that the triple-quoted pattern contains
between fields: a newline followed by the eight spaces of indentation
(present because the pattern is compiled without the VERBOSE flag). -/
def ws : String := "\n        "

/-- The pattern `p0` exactly as Python compiles it.  Captured groups, in
order: sensor, acquisition mode, resolution, processing level, start date,
start time, end date, end time, absolute orbit number, mission data take
id, product unique id. -/
def p0pattern : List PatTok :=
  [ .lit ws, .alts ["S1A", "S1B"],
    .lit ("_" ++ ws), .alts ["IW", "SW", "SM"],
    .lit ("_GRD" ++ ws), .alts ["M", "H"],
    .lit ("_" ++ ws), .digits 1,
    .lit ("SDV_" ++ ws), .digits 8,
    .lit ("T" ++ ws), .digits 6,
    .lit ("_" ++ ws), .digits 8,
    .lit ("T" ++ ws), .digits 6,
    .lit ("_" ++ ws), .wordChars 6,
    .lit ("_" ++ ws), .wordChars 6,
    .lit ("_" ++ ws), .wordChars 4,
    .lit ws ]

/-- `p0.search`: try the pattern at every start position, leftmost first,
returning the captured groups of the first match. -/
def p0Search : List Char → Option (List String)
  | [] =>
    match matchToks p0pattern [] with
    | some cr => some cr.1
    | none => none
  | c :: cs =>
    match matchToks p0pattern (c :: cs) with
    | some cr => some cr.1
    | none => p0Search cs

/-! ### `datetime.strptime(..., '%Y%m%dT%H%M%S').date()`

The regular expression guarantees the date group has exactly 8 digits and
the time group exactly 6, so the format resolves to a 4-2-2 / 2-2-2 split;
`strptime`'s own sub-patterns then force a two-digit month in 01..12 and a
two-digit day in 01..31, and the `datetime` constructor validates the
calendar (year at least 1, day within the month, hour below 24, minute and
second below 60). -/

/-- Numeric value of a digit-character list. -/
def parseNatDigits (cs : List Char) : Nat :=
  cs.foldl (fun acc c => acc * 10 + (c.toNat - 48)) 0

/-- Gregorian leap-year rule used by `datetime`. -/
def isLeapYear (y : Nat) : Bool :=
  (y % 4 == 0 && y % 100 != 0) || y % 400 == 0

/-- Number of days in a month, as validated by the `datetime` constructor. -/
def daysInMonth (y m : Nat) : Nat :=
  if m = 2 then (if isLeapYear y then 29 else 28)
  else if m = 4 ∨ m = 6 ∨ m = 9 ∨ m = 11 then 30
  else 31

/-- `datetime.strptime(date8 ++ "T" ++ time6, '%Y%m%dT%H%M%S').date()` for
an 8-digit date group and a 6-digit time group; `none` models the
`ValueError` raised when the digits do not form a valid timestamp. -/
def strptime_date (date8 time6 : String) : Option PyDate :=
  let d := date8.data
  let t := time6.data
  let y := parseNatDigits (d.take 4)
  let mo := parseNatDigits ((d.drop 4).take 2)
  let dy := parseNatDigits (d.drop 6)
  let h := parseNatDigits (t.take 2)
  let mi := parseNatDigits ((t.drop 2).take 2)
  let s := parseNatDigits (t.drop 4)
  if 1 ≤ y && y ≤ 9999 && 1 ≤ mo && mo ≤ 12 && 1 ≤ dy && dy ≤ daysInMonth y mo
      && h ≤ 23 && mi ≤ 59 && s ≤ 59 then
    some ⟨y, mo, dy⟩
  else
    none

/-- Result of `get_date`: a single start date, or a (start, end) pair when
`start_only` is false. -/
inductive GetDateResult where
  | single (d : PyDate)
  | pair (startD endD : PyDate)
  deriving DecidableEq, Repr

/-- Error message of `strptime` when the matched digits are not a valid
timestamp. -/
def strptimeMsg (date8 time6 : String) : String :=
  "time data \x27" ++ date8 ++ "T" ++ time6 ++
    "\x27 does not match format \x27%Y%m%dT%H%M%S\x27"

/-- `get_date` from `sentinel_one.py`: search the input for the compiled
pattern `p0`; on a match, parse the start (and, unless `start_only`, also
the end) date group; otherwise raise `ValueError` with message
`Unknown pattern`. -/
def get_date (filename : String) (start_only : Bool) : Except String GetDateResult :=
  match p0Search filename.data with
  | none => .error "Unknown pattern"
  | some caps =>
    let sd := caps.getD 4 ""
    let st := caps.getD 5 ""
    match strptime_date sd st with
    | none => .error (strptimeMsg sd st)
    | some startD =>
      if start_only then
        .ok (.single startD)
      else
        let ed := caps.getD 6 ""
        let et := caps.getD 7 ""
        match strptime_date ed et with
        | none => .error (strptimeMsg ed et)
        | some endD => .ok (.pair startD endD)

/-! ### The documented grammar

Modelled from the spec: the documented product-identifier grammar (sensor
in S1A/S1B, acquisition-mode token in IW/SW/SM, resolution M/H, a one-digit
processing level, two 8-digit dates each followed by `T` and a 6-digit
time, and three alphanumeric ID blocks of lengths 6, 6 and 4, joined by
underscores), matched against the whole string.  This is the spec's
description of the input format, used to compare the documented behaviour
with the compiled pattern. -/

/-- The documented grammar as a token sequence (no whitespace anywhere). -/
def documentedPattern : List PatTok :=
  [ .alts ["S1A", "S1B"], .lit "_",
    .alts ["IW", "SW", "SM"], .lit "_GRD",
    .alts ["M", "H"], .lit "_",
    .digits 1, .lit "SDV_",
    .digits 8, .lit "T", .digits 6, .lit "_",
    .digits 8, .lit "T", .digits 6, .lit "_",
    .alnumChars 6, .lit "_",
    .alnumChars 6, .lit "_",
    .alnumChars 4 ]

/-- Whether a string matches the documented grammar exactly (whole string,
no partial match). -/
def documentedGrammar (s : String) : Bool :=
  match matchToks documentedPattern s.data with
  | some (_, []) => true
  | _ => false

/-- The example filename from `get_date`'s own docstring. -/
def docstringFilename : String :=
  "S1A_IW_GRDH_1SDV_20190105T000740_20190105T000805_025335_02CDC8_E4C2"

/-- A string containing the compiled pattern literally, whitespace runs
included: the fields of `docstringFilename` interleaved with the
newline-and-indentation runs that the pattern requires because it was
compiled without the VERBOSE flag. -/
def whitespaceFilename : String :=
  "\n        S1A_\n        IW_GRD\n        H_\n        1SDV_\n        20190105T\n        000740_\n        20190105T\n        000805_\n        025335_\n        02CDC8_\n        E4C2\n        "

/-! ### The time-series extractor `ts_extract`

The extractor validates its parameters, builds one filtered Earth-Engine
query, executes it (one `getInfo` round trip, modelled by an oracle from
the built query to an outcome), and normalizes the response.  The
flattening helpers `simplify` and `dictify` are external collaborators
(they live outside this repository's sources), so the oracle returns their
output: a list of flat records. -/

/-- A value stored in a flattened record (band values, identifiers, ...). -/
inductive PyVal where
  | str (s : String)
  | int (n : Int)
  | null
  deriving DecidableEq, Repr

/-- A flattened record: a Python dict, modelled as an association list
(keys unique, in dict order). -/
abbrev Record := List (String × PyVal)

/-- `dict.pop(k, None)`: remove the binding of `k` from a record. -/
def Record.pop (d : Record) (k : String) : Record :=
  d.filter (fun kv => kv.1 ≠ k)

/-- A Python exception, as relevant to `ts_extract`: `ValueError`,
`ee.EEException`, or any other exception type raised by the remote call. -/
inductive PyError where
  | valueError (msg : String)
  | eeException (msg : String)
  | otherError (name : String)
  deriving DecidableEq, Repr

/-- Whether an exception is (a subclass of) `ee.EEException`, i.e. is
caught by the `except ee.EEException` clause. -/
def PyError.isEE : PyError → Bool
  | .eeException _ => true
  | _ => false

/-- Outcome of the single `getInfo` round trip: the flattened records
(output of the external `simplify`/`dictify` helpers), or an exception. -/
inductive RemoteOutcome where
  | ok (records : List Record)
  | raise (e : PyError)

/-- A polygon feature argument: the code reads
`feature['geometry']['coordinates']` and passes it to
`ee.Geometry.Polygon`; the coordinates themselves are opaque to the code,
hence the type parameter. -/
structure GeoFeature (γ : Type) where
  geometry_coordinates : γ
  deriving DecidableEq, Repr

/-- An `ee.Geometry` as constructed by the code.  `α` is the type of the
scalar coordinate/radius values, which the code passes through unexamined;
`ee.Geometry.Point(lon, lat)` and `.buffer(radius)` receive whatever the
caller supplied, hence the `Option`s. -/
inductive EEGeometry (α γ : Type) where
  | point (lon lat : Option α)
  | pointBuffer (lon lat : Option α) (radius : Option α)
  | polygon (coords : γ)
  deriving DecidableEq, Repr

/-- An `ee.Reducer`, as selected from the `stats` argument. -/
inductive EEReducer where
  | mean
  | median
  | max
  | min
  deriving DecidableEq, Repr

/-- The terminal operation of the query: map a per-image `reduceRegion`
over the collection (region mode) or extract the raw series with
`getRegion` (point mode); both use the fixed scale of 10. -/
inductive EEOp (α γ : Type) where
  | mapReduceRegion (reducer : EEReducer) (geom : EEGeometry α γ) (scale : Nat)
  | getRegion (geom : EEGeometry α γ) (scale : Nat)
  deriving DecidableEq, Repr

/-- The remote query as constructed by `ts_extract` before `getInfo`:
collection name, `filterDate` bounds, the `ee.Filter.eq` attribute
filters in order, the `filterBounds` geometry, the selected bands, and
the terminal operation. -/
structure EEQuery (α γ : Type) where
  collection : String
  startDate : PyDateTime
  endDate : PyDateTime
  filters : List (String × String)
  bounds : EEGeometry α γ
  bands : List String
  op : EEOp α γ
  deriving DecidableEq, Repr

/-- The `polar` argument: Python distinguishes `None`, a list, and any
other single value. -/
inductive PolarArg where
  | pyNone
  | list (ps : List String)
  | single (p : String)
  deriving DecidableEq, Repr

/-- `MODES` from the source. -/
def MODES : List String := ["IW", "EW", "SM"]

/-- `POLARIZATIONS` from the source. -/
def POLARIZATIONS : List String := ["VV", "VH"]

/-- `ORBITS` from the source. -/
def ORBITS : List String := ["ASCENDING", "DESCENDING"]

/-- Python `repr` of a list of strings, as interpolated into the error
messages by the f-strings. -/
def pyListRepr (xs : List String) : String :=
  "[" ++ String.intercalate ", " (xs.map (fun s => "\x27" ++ s ++ "\x27")) ++ "]"

/-- Message of the `ValueError` raised for an unknown mode. -/
def unknownModeMsg (mode : String) : String :=
  "Unknown mode \x27" ++ mode ++ "\x27 (Must be one of " ++ pyListRepr MODES ++ ")"

/-- Message of the `ValueError` raised for an unknown polarization. -/
def unknownPolarMsg (p : String) : String :=
  "Unknown polarization \x27" ++ p ++ "\x27 (Must be one of " ++
    pyListRepr POLARIZATIONS ++ ")"

/-- Message of the `ValueError` raised for an unknown orbit code. -/
def unknownOrbitMsg (orbit : Int) : String :=
  "Unknown orbit type \x27" ++ toString orbit ++ "\x27 (Must be one of " ++
    pyListRepr ORBITS ++ " where 0 -> ASCENDING, 1 -> DESCENDING)"

/-- Message of the `ValueError` raised for an unknown `stats` name. -/
def statsMsg : String :=
  "Unknown spatial aggregation function. Must be one of mean, median, max, or min"

/-- Message of the `ValueError` that replaces an `ee.EEException` from the
remote call. -/
def noDataMsg : String :=
  "No data found for these parameters. Please change the orbit type or the coordinates."

/-- The polarization validation block: `None` is replaced by
`POLARIZATIONS`; a list has each element checked against `POLARIZATIONS`
(raising on the first unknown one); any other single value is wrapped into
a one-element list without any check. -/
def checkPolarList : List String → Except PyError Unit
  | [] => .ok ()
  | p :: rest =>
    if p ∈ POLARIZATIONS then checkPolarList rest
    else .error (.valueError (unknownPolarMsg p))

/-- See `checkPolarList`. -/
def resolvePolar : PolarArg → Except PyError (List String)
  | .pyNone => .ok POLARIZATIONS
  | .list ps =>
    match checkPolarList ps with
    | .error e => .error e
    | .ok _ => .ok ps
  | .single p => .ok [p]

/-- The orbit validation block: `None` stays `None`; an integer must be
0 or 1 and is replaced by the corresponding `Orbit` member name. -/
def resolveOrbit : Option Int → Except PyError (Option String)
  | none => .ok none
  | some n =>
    if n = 0 ∨ n = 1 then
      .ok (some (if n = 0 then "ASCENDING" else "DESCENDING"))
    else
      .error (.valueError (unknownOrbitMsg n))

/-- The `stats` dispatch inside the region-mode branch. -/
def resolveReducer (stats : String) : Except PyError EEReducer :=
  if stats = "mean" then .ok .mean
  else if stats = "median" then .ok .median
  else if stats = "max" then .ok .max
  else if stats = "min" then .ok .min
  else .error (.valueError statsMsg)

/-- The orbit equality filter appended when an orbit direction was
resolved. -/
def orbitFilters : Option String → List (String × String)
  | none => []
  | some o => [("orbitProperties_pass", o)]

/-- The arguments of `ts_extract`.  `endArg = none` models the argument
being left unspecified, in which case the Python default applies (see
`build_query`). -/
structure TsArgs (α γ : Type) where
  start : PyDateTime
  mode : String
  lon : Option α
  lat : Option α
  endArg : Option PyDateTime
  radius : Option α
  feature : Option (GeoFeature γ)
  polar : PolarArg
  orbit : Option Int
  stats : String
  deriving DecidableEq, Repr

/-- Validation and query construction of `ts_extract`, up to (but not
including) the `getInfo` round trip.  `importToday` is the value the
default-argument expression `datetime.today()` produced when the module
was imported: Python evaluates default arguments once, at function
definition time, so an unspecified `end` is this snapshot, not the date of
the call.  Returns the built query together with the region-mode flag
(`true` when a radius or feature was supplied). -/
def build_query {α γ : Type} (a : TsArgs α γ) (importToday : PyDateTime) :
    Except PyError (EEQuery α γ × Bool) :=
  if a.mode ∈ MODES then
    match resolvePolar a.polar with
    | .error e => .error e
    | .ok polar =>
      match resolveOrbit a.orbit with
      | .error e => .error e
      | .ok orbitName =>
        let endDate := a.endArg.getD importToday
        let filters := ("instrumentMode", a.mode) :: orbitFilters orbitName
        if a.radius.isSome || a.feature.isSome then
          match resolveReducer a.stats with
          | .error e => .error e
          | .ok red =>
            let geometry : EEGeometry α γ :=
              match a.feature with
              | some f => .polygon f.geometry_coordinates
              | none => .pointBuffer a.lon a.lat a.radius
            .ok (⟨"COPERNICUS/S1_GRD", a.start, endDate, filters, geometry,
                  polar, .mapReduceRegion red geometry 10⟩, true)
        else
          let geometry : EEGeometry α γ := .point a.lon a.lat
          .ok (⟨"COPERNICUS/S1_GRD", a.start, endDate, filters, geometry,
                polar, .getRegion geometry 10⟩, false)
  else
    .error (.valueError (unknownModeMsg a.mode))

/-- The point-mode post-processing: pop the `longitude`, `latitude` and
`time` keys from a record. -/
def stripPositional (d : Record) : Record :=
  ((d.pop "longitude").pop "latitude").pop "time"

/-- `ts_extract` from `sentinel_one.py`.  `remote` is the Earth-Engine
platform: it maps the built query to the outcome of the single `getInfo`
round trip (flattened by the external `simplify`/`dictify` helpers).  An
`ee.EEException` from the round trip is replaced by the no-data
`ValueError` (`raise ... from None`); any other exception propagates
unchanged.  In point mode the positional keys are popped from every
record. -/
def ts_extract {α γ : Type} (a : TsArgs α γ) (importToday : PyDateTime)
    (remote : EEQuery α γ → RemoteOutcome) : Except PyError (List Record) :=
  match build_query a importToday with
  | .error e => .error e
  | .ok (q, regionMode) =>
    match remote q with
    | .raise e =>
      if e.isEE then .error (.valueError noDataMsg) else .error e
    | .ok records =>
      if regionMode then .ok records
      else .ok (records.map stripPositional)

/-- Replace the `stats` argument, leaving every other argument unchanged. -/
def withStats {α γ : Type} (a : TsArgs α γ) (s : String) : TsArgs α γ :=
  ⟨a.start, a.mode, a.lon, a.lat, a.endArg, a.radius, a.feature, a.polar,
    a.orbit, s⟩

/-- Replace the `radius` argument, leaving every other argument unchanged. -/
def withRadius {α γ : Type} (a : TsArgs α γ) (r : Option α) : TsArgs α γ :=
  ⟨a.start, a.mode, a.lon, a.lat, a.endArg, r, a.feature, a.polar,
    a.orbit, a.stats⟩

/-! ### Concrete sample inputs

Shared concrete instantiations (coordinates and polygon coordinates taken
at type `Int`) used to evaluate the model at specific inputs. -/

/-- 2019-01-01, the start date used throughout the repository's tests. -/
def d0 : PyDateTime := ⟨2019, 1, 1⟩

/-- 2019-06-01, the end date used throughout the repository's tests. -/
def d1 : PyDateTime := ⟨2019, 6, 1⟩

/-- A fully valid point-mode call (no radius, no feature), mirroring the
test suite's `test_point` arguments. -/
def argsPoint : TsArgs Int Int :=
  ⟨d0, "IW", some (-377), some (-46), some d1, none, none,
    .list ["VV", "VH"], none, "mean"⟩

/-- The same call with `polar` given as the single non-list value "HH". -/
def argsPolarHH : TsArgs Int Int :=
  ⟨d0, "IW", some (-377), some (-46), some d1, none, none,
    .single "HH", none, "mean"⟩

/-- An oracle whose single round trip succeeds with no records. -/
def okEmptyRemote : EEQuery Int Int → RemoteOutcome := fun _ => .ok []

/-- An oracle whose single round trip raises an `ee.EEException` that is
not the no-results condition (the platform's memory-limit failure). -/
def memErrRemote : EEQuery Int Int → RemoteOutcome :=
  fun _ => .raise (.eeException "User memory limit exceeded.")

/-- The query built for `argsPoint`. -/
def queryPoint : EEQuery Int Int :=
  ⟨"COPERNICUS/S1_GRD", d0, d1, [("instrumentMode", "IW")],
    .point (some (-377)) (some (-46)), ["VV", "VH"],
    .getRegion (.point (some (-377)) (some (-46))) 10⟩

/-- The query built for `argsPolarHH`: the unvalidated "HH" becomes the
selected band. -/
def queryHH : EEQuery Int Int :=
  ⟨"COPERNICUS/S1_GRD", d0, d1, [("instrumentMode", "IW")],
    .point (some (-377)) (some (-46)), ["HH"],
    .getRegion (.point (some (-377)) (some (-46))) 10⟩

/-- The point-mode call with an empty mode string, mirroring the test
suite's mode-does-not-exist case. -/
def argsBadMode : TsArgs Int Int :=
  ⟨d0, "", some (-3), some 447, some d1, some 300, none,
    .list ["VV", "VH"], none, "mean"⟩

/-- The call with the orbit code 2, mirroring the test suite's
orbit-does-not-exist case. -/
def argsOrbitBad : TsArgs Int Int :=
  ⟨d0, "IW", some (-3), some 447, some d1, some 300, none,
    .list ["VV", "VH"], some 2, "mean"⟩

/-- A point-mode call with orbit code 0 (ascending). -/
def argsOrbit0 : TsArgs Int Int :=
  ⟨d0, "IW", some (-377), some (-46), some d1, none, none,
    .list ["VV", "VH"], some 0, "mean"⟩

/-- The query built for `argsOrbit0`. -/
def queryAsc : EEQuery Int Int :=
  ⟨"COPERNICUS/S1_GRD", d0, d1,
    [("instrumentMode", "IW"), ("orbitProperties_pass", "ASCENDING")],
    .point (some (-377)) (some (-46)), ["VV", "VH"],
    .getRegion (.point (some (-377)) (some (-46))) 10⟩

/-- A region-mode call (radius 500) with orbit code 1 (descending),
mirroring the test suite's descending case. -/
def argsOrbit1 : TsArgs Int Int :=
  ⟨d0, "IW", some (-377), some (-46), some d1, some 500, none,
    .list ["VV", "VH"], some 1, "mean"⟩

/-- The query built for `argsOrbit1`. -/
def queryDesc : EEQuery Int Int :=
  ⟨"COPERNICUS/S1_GRD", d0, d1,
    [("instrumentMode", "IW"), ("orbitProperties_pass", "DESCENDING")],
    .pointBuffer (some (-377)) (some (-46)) (some 500), ["VV", "VH"],
    .mapReduceRegion .mean (.pointBuffer (some (-377)) (some (-46)) (some 500)) 10⟩

/-- A region-mode call with the unsupported `stats` name "mode",
mirroring the test suite's stats argument. -/
def argsStatsBad : TsArgs Int Int :=
  ⟨d0, "IW", some (-3), some 447, some d1, some 300, none,
    .list ["VV", "VH"], none, "mode"⟩

/-- A call whose polarization list contains the invalid element "HH". -/
def argsPolarListBad : TsArgs Int Int :=
  ⟨d0, "IW", some (-377), some (-46), some d1, none, none,
    .list ["VV", "HH"], none, "mean"⟩

/-- A call supplying both a radius and a polygon feature. -/
def argsBoth : TsArgs Int Int :=
  ⟨d0, "IW", some (-377), some (-46), some d1, some 500, some ⟨77⟩,
    .list ["VV", "VH"], none, "mean"⟩

/-- The query built for `argsBoth`: the polygon wins, the radius is
ignored. -/
def queryBoth : EEQuery Int Int :=
  ⟨"COPERNICUS/S1_GRD", d0, d1, [("instrumentMode", "IW")],
    .polygon 77, ["VV", "VH"],
    .mapReduceRegion .mean (.polygon 77) 10⟩

/-- A point-mode call that leaves `end` unspecified. -/
def argsNoEnd : TsArgs Int Int :=
  ⟨d0, "IW", some (-377), some (-46), none, none, none,
    .list ["VV", "VH"], none, "mean"⟩

/-- The value `datetime.today()` produced when the module was imported,
in a scenario where the module was imported on 2023-05-17. -/
def importSnapshot : PyDateTime := ⟨2023, 5, 17⟩

/-- The date on which, in the same scenario, the call is made: the next
day. -/
def callDate : PyDateTime := ⟨2023, 5, 18⟩

/-- The query built for `argsNoEnd` under `importSnapshot`. -/
def queryNoEnd : EEQuery Int Int :=
  ⟨"COPERNICUS/S1_GRD", d0, importSnapshot, [("instrumentMode", "IW")],
    .point (some (-377)) (some (-46)), ["VV", "VH"],
    .getRegion (.point (some (-377)) (some (-46))) 10⟩

/-- A flattened point-mode record as produced by the external `dictify`
helper: identifier, positional fields, and the two band values. -/
def sampleRecord0 : Record :=
  [("id", .str "S1A_IW_GRDH_1SDV_20190105T000740"), ("longitude", .int (-37)),
    ("latitude", .int (-4)), ("time", .int 1546646860), ("VV", .int (-7)),
    ("VH", .int (-12))]

/-- A one-record response. -/
def sampleRecords : List Record := [sampleRecord0]

/-- An oracle whose single round trip succeeds with `sampleRecords`. -/
def sampleRemote : EEQuery Int Int → RemoteOutcome := fun _ => .ok sampleRecords

/-! ### Helper lemmas -/

/-- Whenever `build_query` succeeds, the mode was valid, the polar and
orbit blocks resolved, the filters are the instrument-mode filter followed
by the optional orbit filter, the end date is the supplied one (or the
import-time snapshot), the bands are the resolved polarizations, and the
region-mode flag records whether a radius or feature was supplied. -/
theorem build_query_ok_shape {α γ : Type} (a : TsArgs α γ) (iT : PyDateTime)
    (q : EEQuery α γ) (b : Bool) (hb : build_query a iT = .ok (q, b)) :
    a.mode ∈ MODES ∧
    ∃ bands oname,
      resolvePolar a.polar = .ok bands ∧
      resolveOrbit a.orbit = .ok oname ∧
      q.filters = ("instrumentMode", a.mode) :: orbitFilters oname ∧
      q.endDate = a.endArg.getD iT ∧
      q.bands = bands ∧
      b = (a.radius.isSome || a.feature.isSome) := by
  unfold build_query at hb
  split at hb
  case isFalse hm => simp at hb
  case isTrue hm =>
    refine ⟨hm, ?_⟩
    split at hb
    · simp at hb
    next polar hp =>
      split at hb
      · simp at hb
      next oname ho =>
        refine ⟨polar, oname, hp, ho, ?_⟩
        split at hb
        next hreg =>
          split at hb
          · simp at hb
          next red hred =>
            injection hb with hpair
            injection hpair with hq hbb
            subst hq; subst hbb
            exact ⟨rfl, rfl, rfl, hreg.symm⟩
        next hreg =>
          injection hb with hpair
          injection hpair with hq hbb
          subst hq; subst hbb
          rw [Bool.not_eq_true] at hreg
          exact ⟨rfl, rfl, rfl, hreg.symm⟩

/-- `ts_extract` propagates a validation error of `build_query`. -/
theorem ts_extract_of_build_error {α γ : Type} (a : TsArgs α γ)
    (iT : PyDateTime) (remote : EEQuery α γ → RemoteOutcome) (e : PyError)
    (hb : build_query a iT = .error e) :
    ts_extract a iT remote = .error e := by
  unfold ts_extract
  rw [hb]

/-- `ts_extract` after a successful `build_query`: one round trip on the
built query, exception translation, and the point-mode stripping. -/
theorem ts_extract_of_build_ok {α γ : Type} (a : TsArgs α γ)
    (iT : PyDateTime) (remote : EEQuery α γ → RemoteOutcome)
    (q : EEQuery α γ) (b : Bool) (hb : build_query a iT = .ok (q, b)) :
    ts_extract a iT remote =
      (match remote q with
       | .raise e => if e.isEE then .error (.valueError noDataMsg) else .error e
       | .ok records => if b then .ok records else .ok (records.map stripPositional)) := by
  unfold ts_extract
  rw [hb]

/-- A polarization list containing an element outside `POLARIZATIONS`
makes the validation loop raise, with the message naming some invalid
element of the list (the first one). -/
theorem checkPolarList_err (ps : List String) (p : String)
    (hp : p ∈ ps) (hbad : p ∉ POLARIZATIONS) :
    ∃ q, checkPolarList ps = .error (.valueError (unknownPolarMsg q)) ∧
      q ∈ ps ∧ q ∉ POLARIZATIONS := by
  induction ps with
  | nil => cases hp
  | cons hd t ih =>
    by_cases hh : hd ∈ POLARIZATIONS
    · have hpt : p ∈ t := by
        rcases List.mem_cons.mp hp with h | h
        · exact absurd (h ▸ hh) hbad
        · exact h
      obtain ⟨q, h1, h2, h3⟩ := ih hpt
      exact ⟨q, by simp [checkPolarList, hh, h1], List.mem_cons_of_mem _ h2, h3⟩
    · exact ⟨hd, by simp [checkPolarList, hh], List.mem_cons_self _ _, hh⟩

/-- A `stats` name outside the four supported reducers makes the reducer
dispatch raise the invalid-parameter error. -/
theorem resolveReducer_unknown (s : String)
    (hs : s ∉ ["mean", "median", "max", "min"]) :
    resolveReducer s = .error (.valueError statsMsg) := by
  simp only [List.mem_cons, List.not_mem_nil, or_false, not_or] at hs
  obtain ⟨h1, h2, h3, h4⟩ := hs
  simp [resolveReducer, h1, h2, h3, h4]

/-- Popping a key removes it from the record. -/
theorem lookup_pop_self (d : Record) (k : String) :
    (Record.pop d k).lookup k = none := by
  induction d with
  | nil => rfl
  | cons hd t ih =>
    obtain ⟨hdk, hdv⟩ := hd
    by_cases hk : hdk = k
    · have h1 : Record.pop ((hdk, hdv) :: t) k = Record.pop t k := by
        simp [Record.pop, List.filter_cons, hk]
      rw [h1, ih]
    · have h1 : Record.pop ((hdk, hdv) :: t) k = (hdk, hdv) :: Record.pop t k := by
        simp [Record.pop, List.filter_cons, hk]
      have h2 : (k == hdk) = false :=
        beq_eq_false_iff_ne.mpr (fun e => hk e.symm)
      rw [h1]
      simp [List.lookup, h2, ih]

/-- Popping a key leaves the binding of every other key unchanged. -/
theorem lookup_pop_ne (d : Record) (k k2 : String) (h : k2 ≠ k) :
    (Record.pop d k).lookup k2 = d.lookup k2 := by
  induction d with
  | nil => rfl
  | cons hd t ih =>
    obtain ⟨hdk, hdv⟩ := hd
    by_cases hk : hdk = k
    · have h1 : Record.pop ((hdk, hdv) :: t) k = Record.pop t k := by
        simp [Record.pop, List.filter_cons, hk]
      have h2 : (k2 == hdk) = false :=
        beq_eq_false_iff_ne.mpr (by rw [hk]; exact h)
      rw [h1, ih]
      simp [List.lookup, h2]
    · have h1 : Record.pop ((hdk, hdv) :: t) k = (hdk, hdv) :: Record.pop t k := by
        simp [Record.pop, List.filter_cons, hk]
      rw [h1]
      cases hbeq : k2 == hdk <;> simp [List.lookup, hbeq, ih]

/-- When a polygon feature is supplied (whatever the radius), a valid call
builds the region-mode query over the polygon geometry. -/
theorem build_query_feature_shape {α γ : Type} (a : TsArgs α γ)
    (iT : PyDateTime) (f : GeoFeature γ) (bands : List String)
    (oname : Option String) (red : EEReducer)
    (hfeat : a.feature = some f) (hm : a.mode ∈ MODES)
    (hp : resolvePolar a.polar = .ok bands)
    (ho : resolveOrbit a.orbit = .ok oname)
    (hs : resolveReducer a.stats = .ok red) :
    build_query a iT = .ok
      (⟨"COPERNICUS/S1_GRD", a.start, a.endArg.getD iT,
        ("instrumentMode", a.mode) :: orbitFilters oname,
        .polygon f.geometry_coordinates, bands,
        .mapReduceRegion red (.polygon f.geometry_coordinates) 10⟩, true) := by
  unfold build_query
  rw [if_pos hm, hp, ho, hfeat, hs]
  simp

/-! ### The claims -/

/-- C1: the claim says that for every product-identifier string matching
the documented grammar, `get_date` returns the date encoded by the
start fields (and the (start, end) pair when `start_only` is false).  The
code violates this: the pattern is compiled without the VERBOSE flag, so
its literal whitespace makes every string that conforms to the documented
grammar — including the example from `get_date`'s own docstring — fail to
match, and `get_date` raises `ValueError("Unknown pattern")` instead of
returning the encoded date 2019-01-05. -/
theorem c1_get_date_rejects_documented_filename :
    documentedGrammar docstringFilename = true ∧
    get_date docstringFilename true = .error "Unknown pattern" ∧
    get_date docstringFilename false = .error "Unknown pattern" :=
  ⟨rfl, rfl, rfl⟩

/-- C4: the claim says every string that does not match the documented
grammar exactly makes `get_date` raise a parse-format error.  The code
violates this: a string interleaving the fields with the pattern's literal
newline-and-indentation runs does not conform to the documented grammar,
yet `get_date` parses it successfully and returns 2019-01-05. -/
theorem c4_get_date_accepts_nongrammar_string :
    documentedGrammar whitespaceFilename = false ∧
    get_date whitespaceFilename true = .ok (.single ⟨2019, 1, 5⟩) ∧
    get_date whitespaceFilename false = .ok (.pair ⟨2019, 1, 5⟩ ⟨2019, 1, 5⟩) :=
  ⟨rfl, rfl, rfl⟩

/-- C9: the claim says an unspecified `end` makes the query's date
interval end at the date the call is made.  The code violates this: the
default is `datetime.today()` evaluated once at function definition
(module import) time, so the built query ends at the import-time snapshot
(2023-05-17 in this scenario) even when the call is made on a later date
(2023-05-18). -/
theorem c9_end_default_is_import_snapshot :
    build_query argsNoEnd importSnapshot = .ok (queryNoEnd, false) ∧
    queryNoEnd.endDate = importSnapshot ∧
    importSnapshot ≠ callDate :=
  ⟨rfl, rfl, by decide⟩

/-- C5: a `mode` outside `MODES` makes `ts_extract` raise the
invalid-parameter `ValueError` naming the allowed set, whatever the other
arguments, and independently of the remote oracle (the validation error is
raised before the single network round trip). -/
theorem c5_unknown_mode_fails_fast {α γ : Type} (a : TsArgs α γ)
    (iT : PyDateTime) (remote : EEQuery α γ → RemoteOutcome)
    (hm : a.mode ∉ MODES) :
    ts_extract a iT remote = .error (.valueError (unknownModeMsg a.mode)) := by
  apply ts_extract_of_build_error
  unfold build_query
  rw [if_neg hm]

/-- C5, witness: the empty mode string from the test suite. -/
theorem c5_unknown_mode_witness :
    ts_extract argsBadMode d0 okEmptyRemote =
      .error (.valueError (unknownModeMsg "")) :=
  c5_unknown_mode_fails_fast argsBadMode d0 okEmptyRemote (by decide)

/-- C2, counterexample: the claim says only the no-results condition is
translated, and every other remote failure propagates unchanged.  The
`except ee.EEException` handler catches every `EEException`: here the
remote round trip raises the platform's memory-limit error (not a
no-results condition), yet `ts_extract` discards it and raises the no-data
`ValueError` instead of propagating it. -/
theorem c2_translation_counterexample :
    ts_extract argsPoint d0 memErrRemote = .error (.valueError noDataMsg) ∧
    ts_extract argsPoint d0 memErrRemote ≠
      .error (.eeException "User memory limit exceeded.") := by
  refine ⟨rfl, fun h => ?_⟩
  have h2 : (Except.error (PyError.valueError noDataMsg) : Except PyError (List Record)) =
      .error (.eeException "User memory limit exceeded.") := h
  injection h2 with h3
  cases h3

/-- C2, amended: whenever the remote round trip of a successfully built
query raises an `ee.EEException` — whether or not it is the no-results
condition — `ts_extract` discards it and raises the no-data `ValueError`;
an exception that is not an `ee.EEException` propagates unchanged. -/
theorem c2_eeexception_translation_amended {α γ : Type} :
    (∀ (a : TsArgs α γ) (iT : PyDateTime) (qb : EEQuery α γ × Bool) (m : String),
        build_query a iT = .ok qb →
        ts_extract a iT (fun _ => .raise (.eeException m)) =
          .error (.valueError noDataMsg)) ∧
    (∀ (a : TsArgs α γ) (iT : PyDateTime) (qb : EEQuery α γ × Bool) (e : PyError),
        build_query a iT = .ok qb → e.isEE = false →
        ts_extract a iT (fun _ => .raise e) = .error e) := by
  constructor
  · intro a iT qb m hb
    obtain ⟨q, b⟩ := qb
    rw [ts_extract_of_build_ok a iT _ q b hb]
    rfl
  · intro a iT qb e hb he
    obtain ⟨q, b⟩ := qb
    rw [ts_extract_of_build_ok a iT _ q b hb]
    simp [he]

/-- C2, witness: a capacity error is translated into the no-data
`ValueError`; an HTTP-layer exception (not an `EEException`) propagates. -/
theorem c2_eeexception_translation_witness :
    ts_extract argsPoint d0 (fun _ => .raise (.eeException "Computation timed out.")) =
      .error (.valueError noDataMsg) ∧
    ts_extract argsPoint d0 (fun _ => .raise (.otherError "HttpError")) =
      .error (.otherError "HttpError") :=
  ⟨(@c2_eeexception_translation_amended Int Int).1 argsPoint d0 (queryPoint, false)
      "Computation timed out." rfl,
   (@c2_eeexception_translation_amended Int Int).2 argsPoint d0 (queryPoint, false)
      (.otherError "HttpError") rfl rfl⟩

/-- C3, counterexample: the claim says any `polar` containing a value
outside the polarization set makes `ts_extract` raise an
invalid-parameter error, including a single non-list value such as "HH".
The code only validates lists: a single value is wrapped without any
check, so this call builds a query selecting the band "HH" and completes
without raising. -/
theorem c3_single_polar_counterexample :
    ts_extract argsPolarHH d0 okEmptyRemote = .ok [] ∧
    build_query argsPolarHH d0 = .ok (queryHH, false) ∧
    queryHH.bands = ["HH"] :=
  ⟨rfl, rfl, rfl⟩

/-- C3, amended: if `polar` is a list, an element outside `POLARIZATIONS`
makes `ts_extract` raise the invalid-parameter error naming an invalid
element (the first one); `None` defaults to both polarizations; any other
single value — valid or not — is wrapped into a one-element list with no
validation. -/
theorem c3_polar_validation_amended :
    (∀ (α γ : Type) (a : TsArgs α γ) (iT : PyDateTime)
        (remote : EEQuery α γ → RemoteOutcome) (ps : List String) (p : String),
        a.mode ∈ MODES → a.polar = .list ps → p ∈ ps → p ∉ POLARIZATIONS →
        ∃ q, ts_extract a iT remote = .error (.valueError (unknownPolarMsg q)) ∧
          q ∈ ps ∧ q ∉ POLARIZATIONS) ∧
    resolvePolar .pyNone = .ok POLARIZATIONS ∧
    (∀ v : String, resolvePolar (.single v) = .ok [v]) := by
  refine ⟨?_, rfl, fun v => rfl⟩
  intro α γ a iT remote ps p hm hpol hp hbad
  obtain ⟨q, h1, h2, h3⟩ := checkPolarList_err ps p hp hbad
  refine ⟨q, ?_, h2, h3⟩
  apply ts_extract_of_build_error
  unfold build_query
  rw [if_pos hm, hpol]
  simp [resolvePolar, h1]

/-- C3, witness: the list ["VV", "HH"] raises naming "HH"; `None`
defaults; a single valid value is wrapped. -/
theorem c3_polar_validation_witness :
    ts_extract argsPolarListBad d0 okEmptyRemote =
      .error (.valueError (unknownPolarMsg "HH")) ∧
    resolvePolar .pyNone = .ok POLARIZATIONS ∧
    resolvePolar (.single "VV") = .ok ["VV"] := by
  refine ⟨?_, c3_polar_validation_amended.2.1, c3_polar_validation_amended.2.2 "VV"⟩
  obtain ⟨q, hq, hmem, hbad⟩ :=
    c3_polar_validation_amended.1 Int Int argsPolarListBad d0 okEmptyRemote
      ["VV", "HH"] "HH" (by decide) rfl (by decide) (by decide)
  have hq2 : q = "HH" := by
    rcases List.mem_cons.mp hmem with h | h
    · exact absurd (h ▸ (by decide : "VV" ∈ POLARIZATIONS)) hbad
    · simpa using h
  rw [hq2] at hq
  exact hq

/-- C6: if `orbit` is unset, the built query carries no orbit filter
(only the instrument-mode filter); an orbit code outside 0 and 1 makes
`ts_extract` raise the invalid-parameter error even when the other
parameters are valid; code 0 resolves to the ascending and code 1 to the
descending orbit filter. -/
theorem c6_orbit_validation_and_filter {α γ : Type} :
    (∀ (a : TsArgs α γ) (iT : PyDateTime) (q : EEQuery α γ) (b : Bool),
        a.orbit = none → build_query a iT = .ok (q, b) →
        q.filters = [("instrumentMode", a.mode)]) ∧
    (∀ (a : TsArgs α γ) (iT : PyDateTime) (remote : EEQuery α γ → RemoteOutcome)
        (n : Int) (bands : List String),
        a.orbit = some n → ¬(n = 0 ∨ n = 1) → a.mode ∈ MODES →
        resolvePolar a.polar = .ok bands →
        ts_extract a iT remote = .error (.valueError (unknownOrbitMsg n))) ∧
    (∀ (a : TsArgs α γ) (iT : PyDateTime) (q : EEQuery α γ) (b : Bool),
        a.orbit = some 0 → build_query a iT = .ok (q, b) →
        q.filters = [("instrumentMode", a.mode), ("orbitProperties_pass", "ASCENDING")]) ∧
    (∀ (a : TsArgs α γ) (iT : PyDateTime) (q : EEQuery α γ) (b : Bool),
        a.orbit = some 1 → build_query a iT = .ok (q, b) →
        q.filters = [("instrumentMode", a.mode), ("orbitProperties_pass", "DESCENDING")]) := by
  refine ⟨?_, ?_, ?_, ?_⟩
  · intro a iT q b ho hb
    obtain ⟨hm, bands, oname, hp, hor, hf, _, _, _⟩ := build_query_ok_shape a iT q b hb
    rw [ho] at hor
    have h1 : oname = none := by simpa [resolveOrbit] using hor.symm
    rw [hf, h1]
    rfl
  · intro a iT remote n bands ho hn hm hp
    apply ts_extract_of_build_error
    unfold build_query
    rw [if_pos hm, hp, ho]
    simp [resolveOrbit, hn]
  · intro a iT q b ho hb
    obtain ⟨hm, bands, oname, hp, hor, hf, _, _, _⟩ := build_query_ok_shape a iT q b hb
    rw [ho] at hor
    have h1 : oname = some "ASCENDING" := by simpa [resolveOrbit] using hor.symm
    rw [hf, h1]
    rfl
  · intro a iT q b ho hb
    obtain ⟨hm, bands, oname, hp, hor, hf, _, _, _⟩ := build_query_ok_shape a iT q b hb
    rw [ho] at hor
    have h1 : oname = some "DESCENDING" := by simpa [resolveOrbit] using hor.symm
    rw [hf, h1]
    rfl

/-- C6, witness: no orbit filter for `argsPoint`; the orbit code 2 raises;
codes 0 and 1 resolve to the ascending and descending filters. -/
theorem c6_orbit_witness :
    queryPoint.filters = [("instrumentMode", "IW")] ∧
    ts_extract argsOrbitBad d0 okEmptyRemote =
      .error (.valueError (unknownOrbitMsg 2)) ∧
    queryAsc.filters = [("instrumentMode", "IW"), ("orbitProperties_pass", "ASCENDING")] ∧
    queryDesc.filters = [("instrumentMode", "IW"), ("orbitProperties_pass", "DESCENDING")] :=
  ⟨(@c6_orbit_validation_and_filter Int Int).1 argsPoint d0 queryPoint false rfl rfl,
   (@c6_orbit_validation_and_filter Int Int).2.1 argsOrbitBad d0 okEmptyRemote 2
     ["VV", "VH"] rfl (by decide) (by decide) rfl,
   (@c6_orbit_validation_and_filter Int Int).2.2.1 argsOrbit0 d0 queryAsc false rfl rfl,
   (@c6_orbit_validation_and_filter Int Int).2.2.2 argsOrbit1 d0 queryDesc true rfl rfl⟩

/-- C7: inside the region-mode branch (radius or feature supplied), a
`stats` value outside the four supported reducers makes `ts_extract`
raise the invalid-parameter error naming them, independently of the remote
oracle (so before the round trip); in point mode the `stats` value is
never inspected: the result is the same for any two values. -/
theorem c7_stats_region_only {α γ : Type} :
    (∀ (a : TsArgs α γ) (iT : PyDateTime) (remote : EEQuery α γ → RemoteOutcome)
        (bands : List String) (oname : Option String),
        a.mode ∈ MODES → resolvePolar a.polar = .ok bands →
        resolveOrbit a.orbit = .ok oname →
        (a.radius.isSome || a.feature.isSome) = true →
        a.stats ∉ ["mean", "median", "max", "min"] →
        ts_extract a iT remote = .error (.valueError statsMsg)) ∧
    (∀ (a : TsArgs α γ) (iT : PyDateTime) (remote : EEQuery α γ → RemoteOutcome)
        (s1 s2 : String), a.radius = none → a.feature = none →
        ts_extract (withStats a s1) iT remote = ts_extract (withStats a s2) iT remote) := by
  constructor
  · intro a iT remote bands oname hm hp ho hreg hs
    apply ts_extract_of_build_error
    unfold build_query
    rw [if_pos hm, hp, ho, hreg, resolveReducer_unknown a.stats hs]
    rfl
  · intro a iT remote s1 s2 hrad hfeat
    obtain ⟨st, mo, lo, la, en, ra, fe, po, orb, sts⟩ := a
    simp only at hrad hfeat
    subst hrad; subst hfeat
    rfl

/-- C7, witness: the region-mode stats name "mode" raises; in point mode
the same name is indistinguishable from "mean". -/
theorem c7_stats_witness :
    ts_extract argsStatsBad d0 okEmptyRemote = .error (.valueError statsMsg) ∧
    ts_extract (withStats argsPoint "mode") d0 okEmptyRemote =
      ts_extract (withStats argsPoint "mean") d0 okEmptyRemote :=
  ⟨(@c7_stats_region_only Int Int).1 argsStatsBad d0 okEmptyRemote ["VV", "VH"]
      none (by decide) rfl rfl rfl (by decide),
   (@c7_stats_region_only Int Int).2 argsPoint d0 okEmptyRemote "mode" "mean" rfl rfl⟩

/-- C8: in point mode (no radius, no feature), after the flattened
response comes back, `ts_extract` pops the longitude, latitude and time
keys from every record and leaves the binding of every other key (the
identifier and the band values) unchanged. -/
theorem c8_point_mode_strips_positional {α γ : Type} (a : TsArgs α γ)
    (iT : PyDateTime) (remote : EEQuery α γ → RemoteOutcome)
    (q : EEQuery α γ) (b : Bool) (records : List Record)
    (hrad : a.radius = none) (hfeat : a.feature = none)
    (hb : build_query a iT = .ok (q, b)) (hr : remote q = .ok records) :
    b = false ∧
    ts_extract a iT remote = .ok (records.map stripPositional) ∧
    ∀ d ∈ records,
      (stripPositional d).lookup "longitude" = none ∧
      (stripPositional d).lookup "latitude" = none ∧
      (stripPositional d).lookup "time" = none ∧
      ∀ k : String, k ≠ "longitude" → k ≠ "latitude" → k ≠ "time" →
        (stripPositional d).lookup k = d.lookup k := by
  obtain ⟨hm, bands, oname, hp, ho, hf, he, hbands, hflag⟩ :=
    build_query_ok_shape a iT q b hb
  have hbf : b = false := by rw [hflag, hrad, hfeat]; rfl
  subst hbf
  refine ⟨rfl, ?_, ?_⟩
  · rw [ts_extract_of_build_ok a iT remote q false hb, hr]
    rfl
  · intro d _
    refine ⟨?_, ?_, ?_, ?_⟩
    · unfold stripPositional
      rw [lookup_pop_ne _ _ _ (by decide), lookup_pop_ne _ _ _ (by decide)]
      exact lookup_pop_self _ _
    · unfold stripPositional
      rw [lookup_pop_ne _ _ _ (by decide)]
      exact lookup_pop_self _ _
    · exact lookup_pop_self _ _
    · intro k h1 h2 h3
      unfold stripPositional
      rw [lookup_pop_ne _ _ _ h3, lookup_pop_ne _ _ _ h2, lookup_pop_ne _ _ _ h1]

/-- C8, witness: the one-record sample response has its positional keys
stripped and its band value preserved. -/
theorem c8_point_mode_witness :
    ts_extract argsPoint d0 sampleRemote = .ok (sampleRecords.map stripPositional) ∧
    (stripPositional sampleRecord0).lookup "longitude" = none ∧
    (stripPositional sampleRecord0).lookup "time" = none ∧
    (stripPositional sampleRecord0).lookup "VV" = sampleRecord0.lookup "VV" := by
  obtain ⟨_, hts, hrec⟩ :=
    c8_point_mode_strips_positional argsPoint d0 sampleRemote queryPoint false
      sampleRecords rfl rfl rfl rfl
  obtain ⟨hlon, _, htime, hother⟩ := hrec sampleRecord0 (by decide)
  exact ⟨hts, hlon, htime, hother "VV" (by decide) (by decide) (by decide)⟩

/-- C10: a call supplying both a radius and a polygon feature is not
rejected: the built query is the region-mode query whose geometry is the
polygon, and the supplied radius is ignored (replacing it changes
nothing). -/
theorem c10_feature_over_radius {α γ : Type} (a : TsArgs α γ)
    (iT : PyDateTime) (r0 : α) (f : GeoFeature γ) (bands : List String)
    (oname : Option String) (red : EEReducer)
    (_hrad : a.radius = some r0) (hfeat : a.feature = some f)
    (hm : a.mode ∈ MODES) (hp : resolvePolar a.polar = .ok bands)
    (ho : resolveOrbit a.orbit = .ok oname)
    (hs : resolveReducer a.stats = .ok red) :
    build_query a iT = .ok
      (⟨"COPERNICUS/S1_GRD", a.start, a.endArg.getD iT,
        ("instrumentMode", a.mode) :: orbitFilters oname,
        .polygon f.geometry_coordinates, bands,
        .mapReduceRegion red (.polygon f.geometry_coordinates) 10⟩, true) ∧
    ∀ r2 : α, build_query (withRadius a (some r2)) iT = build_query a iT := by
  have h1 := build_query_feature_shape a iT f bands oname red hfeat hm hp ho hs
  refine ⟨h1, ?_⟩
  intro r2
  have hf2 : (withRadius a (some r2)).feature = some f := hfeat
  have hm2 : (withRadius a (some r2)).mode ∈ MODES := hm
  have hp2 : resolvePolar (withRadius a (some r2)).polar = .ok bands := hp
  have ho2 : resolveOrbit (withRadius a (some r2)).orbit = .ok oname := ho
  have hs2 : resolveReducer (withRadius a (some r2)).stats = .ok red := hs
  have h2 := build_query_feature_shape (withRadius a (some r2)) iT f bands oname
    red hf2 hm2 hp2 ho2 hs2
  rw [h2, h1]
  rfl

/-- C10, witness: with radius 500 and a polygon feature both supplied,
the polygon is the query geometry and replacing the radius by 999 leaves
the built query unchanged. -/
theorem c10_feature_witness :
    build_query argsBoth d0 = .ok (queryBoth, true) ∧
    build_query (withRadius argsBoth (some 999)) d0 = build_query argsBoth d0 := by
  obtain ⟨h1, h2⟩ :=
    c10_feature_over_radius argsBoth d0 500 ⟨77⟩ ["VV", "VH"] none .mean
      rfl rfl (by decide) rfl rfl rfl
  exact ⟨h1, h2 999⟩

end Geextract
